import Mathlib

/-!
# Tile Preview (Adobe Photoshop script): shallow embedding

Source: `src/scripts/Tile Preview.jsx`.

The script is one closure whose variables (`target`, `units`, `tile_size`,
`preview_doc`) are mutated by `_init`, `_copy_active`, `_create_image`,
`_create_tiles`, `_highlight_tile` and `_end`.  Here the variables and the part
of the Photoshop host the script writes to form an explicit `State`; what the
script only reads from the host is an `Env`.

Conventions.
* Pixel quantities are mathematical integers (`Int`).  The script computes with
  JavaScript numbers, which are exact on integers below `2^53`; Photoshop
  documents are far smaller.
* A host call inside a `try` block may throw.  Which call throws is an input
  (`Faults`).  Host calls outside `try` blocks are taken not to throw.
* The two `for` loops of `_create_tiles` are recursive functions on an iteration
  budget (`fuel`); running out of budget is reported as `Status.outOfFuel` and is
  never confused with the loop having finished.
-/

namespace TilePreview

/-! ## Data model -/

/-- Value of `settings.gap`: the literal `false`, or a number of pixels. -/
inductive Gap where
  | off : Gap
  | px (g : Int) : Gap
  deriving DecidableEq

/-- JavaScript truthiness of the gap value, as tested by `if(settings.gap)`. -/
def Gap.truthy : Gap → Bool
  | .off => false
  | .px g => g != 0

/-- JavaScript numeric value of the gap, as used by `settings.gap * (...)`. -/
def Gap.toNumber : Gap → Int
  | .off => 0
  | .px g => g

/-- Tiling settings (source lines 45-49). -/
structure Settings where
  rows : Int
  cols : Int
  gap : Gap
  deriving DecidableEq

/-- The settings the script ships with. -/
def settings : Settings := { rows := 5, cols := 5, gap := .off }

/-- Current target (source line 53). -/
inductive Target where
  | IMAGE
  | LAYER
  | SELECTION
  deriving DecidableEq

/-- Ruler units of the host preferences. -/
inductive Units where
  | PIXELS
  | INCHES
  | CM
  | MM
  | POINTS
  | PICAS
  | PERCENT
  deriving DecidableEq

/-- Which document is `app.activeDocument`. -/
inductive DocRef where
  | original
  | preview
  deriving DecidableEq

/-- A vector such as `tile_size`. -/
structure Vec2 where
  x : Int
  y : Int
  deriving DecidableEq

/-- A Photoshop bounds array, each entry already read with `parseInt`. -/
structure Bounds where
  b0 : Int
  b1 : Int
  b2 : Int
  b3 : Int
  deriving DecidableEq

/-- A selection area: the array of corner points handed to `selection.select`. -/
abbrev Area := List (Int × Int)

/-- The four-corner array built at source lines 297-302 and 338-343. -/
def rectArea (x y w h : Int) : Area :=
  [(x, y), (x + w, y), (x + w, y + h), (x, y + h)]

/-- Pixel `(px, py)` lies in the axis-parallel rectangle spanned by the first and
third corner of a four-corner area (left/top inclusive, right/bottom exclusive). -/
def Area.covers (a : Area) (px py : Int) : Bool :=
  match a with
  | [(x0, y0), _, (x1, y1), _] =>
      decide (x0 ≤ px) && decide (px < x1) && decide (y0 ≤ py) && decide (py < y1)
  | _ => false

inductive StrokeLocation where
  | INSIDE
  | CENTER
  | OUTSIDE
  deriving DecidableEq

/-- One call of `selection.stroke(color, width, location)` with the selected area. -/
structure Stroke where
  hexValue : String
  width : Int
  location : StrokeLocation
  area : Area
  deriving DecidableEq

/-- An art layer of the preview document: the copies of the clipboard pasted
into it (by selected area, in paste order) and the strokes drawn on it. -/
structure Layer where
  background : Bool
  tiles : List Area
  strokes : List Stroke
  deriving DecidableEq

/-- The preview document.  `layers` is the layer stack, top-most first. -/
structure PreviewDoc where
  width : Int
  height : Int
  layers : List Layer
  activeLayer : Nat
  selection : Option Area
  deriving DecidableEq

/-- A dialog shown by `_notify`, identified by its title. -/
inductive Dialog where
  | alert (title : String)
  | confirm (title : String)
  deriving DecidableEq

/-- The three host calls of one iteration of `_create_tiles`. -/
inductive TileCall where
  | select
  | paste
  | merge
  deriving DecidableEq

/-- Which host call throws, per `try` block.  A number is the position of the
call inside the block (0 is the first host call). -/
structure Faults where
  copy : Option Nat
  create : Option Nat
  tiles : Option (Nat × TileCall)
  highlight : Option Nat
  deriving DecidableEq

/-- The fault lies among the first `n` host calls of the block. -/
def faultWithin (f : Option Nat) (n : Nat) : Bool :=
  match f with
  | some i => decide (i < n)
  | none => false

/-- What the script reads from the host. -/
structure Env where
  /-- The value `parseInt(version, 10)`. -/
  version : Int
  /-- The value `documents.length`. -/
  documentsLength : Nat
  /-- The value `app.preferences.rulerUnits` when the script is loaded. -/
  rulerUnits : Units
  /-- What the host answers to `doc.artLayers <= 1` (a collection compared with a number). -/
  artLayersLeOne : Bool
  /-- The value `doc.artLayers.length`. -/
  artLayersLength : Nat
  /-- The value `doc.layerSets.length`. -/
  layerSetsLength : Nat
  /-- What the host answers to `layer.bounds[0] == layer.bounds[2]`. -/
  layerEmpty : Bool
  /-- Whether `layer.typename == 'LayerSet'`. -/
  layerIsSet : Bool
  /-- The answer of the user to a confirmation box. -/
  confirmAnswer : Bool
  /-- The value `selection.bounds`; `none` when reading it throws or gives a falsy value. -/
  selectionBounds : Option Bounds
  /-- The value `parseInt(doc.width)`. -/
  docWidth : Int
  /-- The value `parseInt(doc.height)`. -/
  docHeight : Int
  /-- The value `layer.bounds`. -/
  layerBounds : Bounds
  /-- The bounds of the merged duplicate of the active layer group. -/
  mergedBounds : Bounds
  faults : Faults
  deriving DecidableEq

/-- The script variables and the host state the script writes to. -/
structure State where
  target : Target
  units : Units
  tile_size : Vec2
  preview_doc : Option PreviewDoc
  /-- The host preference `preferences.rulerUnits`. -/
  rulerUnits : Units
  /-- The host property `app.activeDocument`. -/
  activeDocument : DocRef
  /-- Dialogs shown so far, oldest first. -/
  dialogs : List Dialog
  /-- Arguments `(width, height)` of the calls of `app.documents.add` so far. -/
  addCalls : List (Int × Int)
  deriving DecidableEq

/-- The variable initialisers of source lines 53-71. -/
def initialState (env : Env) : State :=
  { target := .IMAGE
    units := env.rulerUnits
    tile_size := ⟨0, 0⟩
    preview_doc := none
    rulerUnits := env.rulerUnits
    activeDocument := .original
    dialogs := []
    addCalls := [] }

/-! ## Host operations on the preview document -/

/-- A new, empty art layer. -/
def emptyLayer : Layer := { background := false, tiles := [], strokes := [] }

/-- The document made by `app.documents.add(w, h, ...)`: one background layer. -/
def newDocument (w h : Int) : PreviewDoc :=
  { width := w
    height := h
    layers := [{ background := true, tiles := [], strokes := [] }]
    activeLayer := 0
    selection := none }

/-- The call `artLayers.add()`: a new layer on top, which becomes active. -/
def PreviewDoc.artLayersAdd (pd : PreviewDoc) : PreviewDoc :=
  { pd with layers := emptyLayer :: pd.layers, activeLayer := 0 }

/-- The call `backgroundLayer.remove()`. -/
def PreviewDoc.removeBackground (pd : PreviewDoc) : PreviewDoc :=
  { pd with layers := pd.layers.filter (fun l => !l.background) }

/-- The call `selection.select(area)`. -/
def PreviewDoc.select (pd : PreviewDoc) (area : Area) : PreviewDoc :=
  { pd with selection := some area }

/-- The call `paste(true)` (paste into the selection): a new layer holding one
copy of the clipboard in the selected area is put above the active layer and
becomes active.  Without a selection the call throws (`none`). -/
def PreviewDoc.paste (pd : PreviewDoc) : Option PreviewDoc :=
  match pd.selection with
  | none => none
  | some a =>
      some { pd with
        layers := pd.layers.take pd.activeLayer
          ++ ({ background := false, tiles := [a], strokes := [] } : Layer)
          :: pd.layers.drop pd.activeLayer }

/-- The call `merge()` on the active layer: it is merged into the layer below.
Without a layer below the call throws (`none`). -/
def PreviewDoc.merge (pd : PreviewDoc) : Option PreviewDoc :=
  match pd.layers.drop pd.activeLayer with
  | top :: below :: rest =>
      some { pd with
        layers := pd.layers.take pd.activeLayer
          ++ ({ below with tiles := below.tiles ++ top.tiles
                           strokes := below.strokes ++ top.strokes } : Layer) :: rest }
  | _ => none

/-- The call `selection.stroke(color, width, location)`: strokes the selected
area on the active layer.  Without a selection or an active layer it throws. -/
def PreviewDoc.stroke (pd : PreviewDoc) (hex : String) (w : Int) (loc : StrokeLocation) :
    Option PreviewDoc :=
  match pd.selection, pd.layers.drop pd.activeLayer with
  | some a, l :: rest =>
      some { pd with
        layers := pd.layers.take pd.activeLayer
          ++ ({ l with strokes := l.strokes ++ [⟨hex, w, loc, a⟩] } : Layer) :: rest }
  | _, _ => none

/-- The call `selection.deselect()`. -/
def PreviewDoc.deselect (pd : PreviewDoc) : PreviewDoc :=
  { pd with selection := none }

/-! ## The functions of the script -/

/-- Source lines 370-380. -/
def _parse_bounds (bounds : Bounds) : Vec2 × Vec2 :=
  (⟨bounds.b0, bounds.b1⟩, ⟨bounds.b2, bounds.b3⟩)

/-- Source lines 394-400: a confirmation box returns the answer of the user, an
alert returns nothing (a falsy value). -/
def _notify (env : Env) (st : State) (title : String) (yesno : Bool) : Bool × State :=
  if yesno then (env.confirmAnswer, { st with dialogs := st.dialogs ++ [.confirm title] })
  else (false, { st with dialogs := st.dialogs ++ [.alert title] })

/-- Source lines 408-411. -/
def _minimum_version (env : Env) : Bool :=
  decide (env.version ≥ 16)

/-- Source lines 419-422: `documents.length` used as a truth value. -/
def _open_document (env : Env) : Bool :=
  env.documentsLength != 0

/-- Source lines 442-446: `Selection.prototype.active`. -/
def Selection.active (env : Env) : Bool :=
  env.selectionBounds.isSome

/-- Source lines 185-243.  Host calls per branch, in order:
IMAGE: `layer.copy`, `doc.width`, `doc.height`;
LAYER on a group: `duplicate`, `merge`, `bounds`, `copy`, `remove`;
LAYER otherwise: `layer.copy`, `layer.bounds`;
SELECTION: `selection.copy`, `selection.bounds`. -/
def _copy_active (env : Env) (st : State) : Bool × State :=
  match st.target with
  | .IMAGE =>
      if faultWithin env.faults.copy 2 then (false, st)
      else
        let st1 := { st with tile_size := { st.tile_size with x := env.docWidth } }
        if faultWithin env.faults.copy 3 then (false, st1)
        else (true, { st1 with tile_size := { st1.tile_size with y := env.docHeight } })
  | .LAYER =>
      if env.layerIsSet then
        if faultWithin env.faults.copy 5 then (false, st)
        else
          let box := _parse_bounds env.mergedBounds
          (true, { st with tile_size := ⟨box.2.x - box.1.x, box.2.y - box.1.y⟩ })
      else
        if faultWithin env.faults.copy 2 then (false, st)
        else
          let box := _parse_bounds env.layerBounds
          (true, { st with tile_size := ⟨box.2.x - box.1.x, box.2.y - box.1.y⟩ })
  | .SELECTION =>
      if faultWithin env.faults.copy 1 then (false, st)
      else
        match env.selectionBounds with
        | none => (false, st)
        | some b =>
            if faultWithin env.faults.copy 2 then (false, st)
            else
              let box := _parse_bounds b
              (true, { st with tile_size := ⟨box.2.x - box.1.x, box.2.y - box.1.y⟩ })

/-- Source lines 251-275.  Host calls, in order: `app.documents.add`,
`artLayers.add`, `backgroundLayer.remove`.  The arguments of `documents.add` are
computed, and recorded in `addCalls`, before the call can throw; the document it
returns has the requested size and becomes the active document. -/
def _create_image (s : Settings) (env : Env) (st : State) : Bool × State :=
  let doc_x := st.tile_size.x * s.cols
  let doc_y := st.tile_size.y * s.rows
  let doc_x := if s.gap.truthy then doc_x + s.gap.toNumber * (s.cols - 1) else doc_x
  let doc_y := if s.gap.truthy then doc_y + s.gap.toNumber * (s.rows - 1) else doc_y
  let st := { st with addCalls := st.addCalls ++ [(doc_x, doc_y)] }
  if faultWithin env.faults.create 1 then (false, st)
  else
    let pd := newDocument doc_x doc_y
    let st := { st with preview_doc := some pd, activeDocument := .preview }
    if faultWithin env.faults.create 2 then (false, st)
    else
      let pd := pd.artLayersAdd
      let st := { st with preview_doc := some pd }
      if faultWithin env.faults.create 3 then (false, st)
      else (true, { st with preview_doc := some pd.removeBackground })

/-- How a run of the tile loops ended. -/
inductive Status where
  | ok
  | threw
  | outOfFuel
  deriving DecidableEq

/-- Source lines 297-305, the body of the inner loop for tile number `k` (counted
from 0) at `(x, y)`: build the area, select it, paste into it, merge down. -/
def tileStep (f : Option (Nat × TileCall)) (ts : Vec2) (k : Nat) (x y : Int)
    (pd : PreviewDoc) : Bool × PreviewDoc :=
  let area : Area := [(x, y), (x + ts.x, y), (x + ts.x, y + ts.y), (x, y + ts.y)]
  if f = some (k, .select) then (false, pd)
  else
    let pd1 := pd.select area
    if f = some (k, .paste) then (false, pd1)
    else
      match pd1.paste with
      | none => (false, pd1)
      | some pd2 =>
          if f = some (k, .merge) then (false, pd2)
          else
            match pd2.merge with
            | none => (false, pd2)
            | some pd3 => (true, pd3)

/-- Source lines 295-306: `for(var x = ...; x < doc_x; x += tile_size.x)`, entered
with the current `x`, after `k` tiles.  Returns the number of tiles placed. -/
def tilesX (f : Option (Nat × TileCall)) (ts : Vec2) (doc_x y : Int) :
    Nat → Int → Nat → PreviewDoc → Status × Nat × PreviewDoc
  | 0, _, k, pd => (.outOfFuel, k, pd)
  | fuel + 1, x, k, pd =>
      if x < doc_x then
        match tileStep f ts k x y pd with
        | (false, pd1) => (.threw, k, pd1)
        | (true, pd1) => tilesX f ts doc_x y fuel (x + ts.x) (k + 1) pd1
      else (.ok, k, pd)

/-- Source lines 293-307: `for(var y = ...; y < doc_y; y += tile_size.y)`, entered
with the current `y`, after `k` tiles.  Each inner loop gets the budget `fuelX`. -/
def tilesY (f : Option (Nat × TileCall)) (ts : Vec2) (doc_x doc_y : Int) (fuelX : Nat) :
    Nat → Int → Nat → PreviewDoc → Status × Nat × PreviewDoc
  | 0, _, k, pd => (.outOfFuel, k, pd)
  | fuel + 1, y, k, pd =>
      if y < doc_y then
        match tilesX f ts doc_x y fuelX 0 k pd with
        | (.ok, k1, pd1) => tilesY f ts doc_x doc_y fuelX fuel (y + ts.y) k1 pd1
        | r => r
      else (.ok, k, pd)

/-- Source lines 286-315.  `parseInt(preview_doc.width)` is the width the document
was created with.  When `preview_doc` is still `false` both reads give `NaN`, no
loop body runs and the function returns `true`. -/
def _create_tiles (env : Env) (fuel : Nat) (st : State) : Status × State :=
  match st.preview_doc with
  | none => (.ok, st)
  | some pd =>
      let doc_x := pd.width
      let doc_y := pd.height
      match tilesY env.faults.tiles st.tile_size doc_x doc_y fuel fuel 0 0 pd with
      | (status, _, pd1) => (status, { st with preview_doc := some pd1 })

/-- Source lines 326-357.  Host calls, in order: `new SolidColor`,
`preview_doc.width`, `preview_doc.height`, `artLayers.add`, the assignment to
`activeLayer`, `selection.select`, `selection.stroke`, `selection.deselect`. -/
def _highlight_tile (env : Env) (st : State) : Bool × State :=
  match st.preview_doc with
  | none => (false, st)
  | some pd =>
      if faultWithin env.faults.highlight 4 then (false, st)
      else
        let pd1 := pd.artLayersAdd
        let area : Area :=
          [(0, 0), (st.tile_size.x, 0), (st.tile_size.x, st.tile_size.y), (0, st.tile_size.y)]
        if faultWithin env.faults.highlight 5 then (false, { st with preview_doc := some pd1 })
        else
          let pd2 := { pd1 with activeLayer := 0 }
          if faultWithin env.faults.highlight 6 then (false, { st with preview_doc := some pd2 })
          else
            let pd3 := pd2.select area
            if faultWithin env.faults.highlight 7 then
              (false, { st with preview_doc := some pd3 })
            else
              match pd3.stroke "FF00FF" 1 .INSIDE with
              | none => (false, { st with preview_doc := some pd3 })
              | some pd4 =>
                  if faultWithin env.faults.highlight 8 then
                    (false, { st with preview_doc := some pd4 })
                  else (true, { st with preview_doc := some pd4.deselect })

/-- Whether a function of the script came back to its caller. -/
inductive Completion where
  | returned
  | fuelExhausted
  deriving DecidableEq

/-- Source lines 134-172, the part of `_init` after the target is set. -/
def _init_rest (s : Settings) (env : Env) (fuel : Nat) (st : State) : Completion × State :=
  let st := { st with rulerUnits := .PIXELS }
  let st := (_copy_active env st).2
  if st.tile_size.x = 0 ∨ st.tile_size.y = 0 then
    (.returned, (_notify env st "No Source Tile" false).2)
  else
    match _create_image s env st with
    | (ok, st) =>
        if !ok || st.preview_doc.isNone then
          (.returned, (_notify env st "Unable to create preview" false).2)
        else
          match _create_tiles env fuel st with
          | (.outOfFuel, st) => (.fuelExhausted, st)
          | (.threw, st) => (.returned, (_notify env st "Unable to create tiles" false).2)
          | (.ok, st) =>
              match _highlight_tile env st with
              | (false, st) => (.returned, (_notify env st "Unable to hilight" false).2)
              | (true, st) => (.returned, st)

/-- Source lines 77-173. -/
def _init (s : Settings) (env : Env) (fuel : Nat) (st : State) : Completion × State :=
  if !_minimum_version env then
    (.returned, (_notify env st "Incorrect Version" false).2)
  else if !_open_document env then
    (.returned, (_notify env st "No Files Open" false).2)
  else if env.artLayersLeOne && env.layerEmpty then
    (.returned, (_notify env st "No Artwork" false).2)
  else if Selection.active env then
    _init_rest s env fuel { st with target := .SELECTION }
  else if decide (env.artLayersLength > 1) || decide (env.layerSetsLength > 0) then
    let st := { st with target := .LAYER }
    if env.layerEmpty then
      (.returned, (_notify env st "No Layer Content" false).2)
    else if env.layerIsSet then
      match _notify env st "Tile Layer Group?" true with
      | (false, st) => (.returned, st)
      | (true, st) => _init_rest s env fuel st
    else _init_rest s env fuel st
  else _init_rest s env fuel st

/-- Source lines 428-435. -/
def _end (st : State) : State :=
  { st with rulerUnits := st.units, activeDocument := .original }

/-- Source lines 449-454: the body of the closure, `_init(); _end()`. -/
def Preview (s : Settings) (env : Env) (fuel : Nat) : Completion × State :=
  match _init s env fuel (initialState env) with
  | (.returned, st) => (.returned, _end st)
  | (.fuelExhausted, st) => (.fuelExhausted, st)

/-! ## Reference descriptions of the grid -/

/-- The number `⌈a / b⌉` for natural numbers. -/
def ceilDiv (a b : Nat) : Nat := (a + b - 1) / b

/-- The `rows * cols` rectangles of size `W x H` with origin `(c * dx, r * dy)` for
`r < rows`, `c < cols`, in row-major order: all columns of row 0, then row 1, ... -/
def placements (W H : Int) (rows cols : Nat) (dx dy : Int) : List Area :=
  (List.range rows).flatMap fun (r : Nat) =>
    (List.range cols).map fun (c : Nat) => rectArea ((c : Int) * dx) ((r : Int) * dy) W H

/-- The row of `n` rectangles of size `W x H` at height `y`, the first at `x`, each
next one `W` further right. -/
def rowAreas (W H y : Int) : Nat → Int → List Area
  | 0, _ => []
  | n + 1, x => rectArea x y W H :: rowAreas W H y n (x + W)

/-- The grid of `m` rows of `n` rectangles each, the first row at height `y`, each
next one `H` further down. -/
def gridAreas (W H : Int) (n : Nat) : Nat → Int → List Area
  | 0, _ => []
  | m + 1, y => rowAreas W H y n 0 ++ gridAreas W H n m (y + H)

/-- The number of iterations of `for(v = 0; v < doc; v += step)` for a positive
step: `⌈doc / step⌉`, and 0 when `doc ≤ 0`. -/
def loopCount (doc step : Int) : Nat := ceilDiv doc.toNat step.toNat

/-- An example host: Photoshop 19 with one open document of `w` by `h` pixels that
has a single art layer with artwork, no layer group and no selection; the ruler
units are inches; no host call throws. -/
def demoEnv (w h : Int) : Env :=
  { version := 19
    documentsLength := 1
    rulerUnits := .INCHES
    artLayersLeOne := false
    artLayersLength := 1
    layerSetsLength := 0
    layerEmpty := false
    layerIsSet := false
    confirmAnswer := false
    selectionBounds := none
    docWidth := w
    docHeight := h
    layerBounds := ⟨0, 0, w, h⟩
    mergedBounds := ⟨0, 0, w, h⟩
    faults := { copy := none, create := none, tiles := none, highlight := none } }

/-- The state in which `_create_image` is entered on the example host: the initial
state with the ruler units set to pixels and the tile size taken from the document. -/
def demoState (w h : Int) : State :=
  { initialState (demoEnv w h) with rulerUnits := .PIXELS, tile_size := ⟨w, h⟩ }

/-- An example host with an active selection in a document of three art layers. -/
def demoEnvSelection : Env :=
  { demoEnv 64 64 with selectionBounds := some ⟨10, 10, 42, 42⟩, artLayersLength := 3 }

/-! ## Canvas size -/

/-- The gap term is added when the gap is truthy, and is 0 when it is not. -/
theorem gap_term (g : Gap) (a c : Int) :
    (if g.truthy then a * c + g.toNumber * (c - 1) else a * c)
      = c * a + g.toNumber * (c - 1) := by
  cases g with
  | off => simp [Gap.truthy, Gap.toNumber, mul_comm]
  | px v =>
      by_cases h0 : v = 0
      · simp [Gap.truthy, Gap.toNumber, h0, mul_comm]
      · simp [Gap.truthy, Gap.toNumber, h0, mul_comm]

/-- What `_create_image` asks the host for, whatever throws afterwards. -/
theorem create_image_addCalls (s : Settings) (env : Env) (st : State) :
    (_create_image s env st).2.addCalls
      = st.addCalls ++ [(s.cols * st.tile_size.x + s.gap.toNumber * (s.cols - 1),
                         s.rows * st.tile_size.y + s.gap.toNumber * (s.rows - 1))] := by
  simp only [_create_image, gap_term]
  split_ifs <;> rfl

/-- The state after `_create_image` when no host call throws: a document of the
requested size with one empty, active art layer. -/
theorem create_image_ok (s : Settings) (env : Env) (st : State)
    (hf : env.faults.create = none) :
    _create_image s env st
      = (true, { st with
          addCalls := st.addCalls ++ [(s.cols * st.tile_size.x + s.gap.toNumber * (s.cols - 1),
                                       s.rows * st.tile_size.y + s.gap.toNumber * (s.rows - 1))]
          preview_doc := some
            { width := s.cols * st.tile_size.x + s.gap.toNumber * (s.cols - 1)
              height := s.rows * st.tile_size.y + s.gap.toNumber * (s.rows - 1)
              layers := [emptyLayer]
              activeLayer := 0
              selection := none }
          activeDocument := .preview }) := by
  simp only [_create_image, gap_term, hf, faultWithin]
  simp [PreviewDoc.removeBackground, PreviewDoc.artLayersAdd, newDocument, emptyLayer]

/-- C1: for every settings value and every tile size `W x H`, the width and height
that `_create_image` passes to `app.documents.add` are `cols * W + gap * (cols - 1)`
and `rows * H + gap * (rows - 1)`, the gap `false` counting as 0; this holds in
particular for `W, H, rows, cols ≥ 1` and `gap ≥ 0`.  When no host call throws,
the preview document has exactly that size. -/
theorem create_image_canvas_size (s : Settings) (env : Env) (st : State) :
    (_create_image s env st).2.addCalls
        = st.addCalls ++ [(s.cols * st.tile_size.x + s.gap.toNumber * (s.cols - 1),
                           s.rows * st.tile_size.y + s.gap.toNumber * (s.rows - 1))]
      ∧ (env.faults.create = none →
          ∃ pd, (_create_image s env st).2.preview_doc = some pd
            ∧ pd.width = s.cols * st.tile_size.x + s.gap.toNumber * (s.cols - 1)
            ∧ pd.height = s.rows * st.tile_size.y + s.gap.toNumber * (s.rows - 1)) := by
  refine ⟨create_image_addCalls s env st, fun hf => ?_⟩
  rw [create_image_ok s env st hf]
  exact ⟨_, rfl, rfl, rfl⟩

/-! ## The tile loops -/

theorem rowAreas_length (W H y : Int) (n : Nat) (x : Int) :
    (rowAreas W H y n x).length = n := by
  induction n generalizing x with
  | zero => rfl
  | succ n ih => simp [rowAreas, ih]

theorem gridAreas_length (W H : Int) (n m : Nat) (y : Int) :
    (gridAreas W H n m y).length = m * n := by
  induction m generalizing y with
  | zero => simp [gridAreas]
  | succ m ih => simp [gridAreas, ih, rowAreas_length, Nat.succ_mul, Nat.add_comm]

theorem rowAreas_eq_map (W H y : Int) (n : Nat) (x : Int) :
    rowAreas W H y n x = (List.range n).map fun (c : Nat) => rectArea (x + (c : Int) * W) y W H := by
  induction n generalizing x with
  | zero => rfl
  | succ n ih =>
      rw [rowAreas, ih, List.range_succ_eq_map, List.map_cons, List.map_map]
      congr 1
      · simp
      · apply List.map_congr_left
        intro c _
        simp only [Function.comp, Nat.succ_eq_add_one, Nat.cast_add, Nat.cast_one]
        congr 1
        ring

theorem gridAreas_eq_flatMap (W H : Int) (n m : Nat) (y : Int) :
    gridAreas W H n m y
      = (List.range m).flatMap fun (r : Nat) =>
          (List.range n).map fun (c : Nat) => rectArea ((c : Int) * W) (y + (r : Int) * H) W H := by
  induction m generalizing y with
  | zero => rfl
  | succ m ih =>
      rw [gridAreas, ih, List.range_succ_eq_map, List.flatMap_cons, List.flatMap_map,
        rowAreas_eq_map]
      congr 1
      · simp
      · apply List.flatMap_congr
        intro r _
        apply List.map_congr_left
        intro c _
        simp only [Nat.succ_eq_add_one, Nat.cast_add, Nat.cast_one]
        congr 1
        ring

theorem gridAreas_eq_placements (W H : Int) (n m : Nat) :
    gridAreas W H n m 0 = placements W H m n W H := by
  rw [gridAreas_eq_flatMap]
  simp [placements]

/-- One iteration without a fault on it appends its rectangle to the active bottom layer. -/
theorem tileStep_ok (f : Option (Nat × TileCall)) (ts : Vec2) (k : Nat) (x y : Int)
    (pd : PreviewDoc) (L : Layer) (rest : List Layer)
    (hl : pd.layers = L :: rest) (ha : pd.activeLayer = 0)
    (hf : ∀ c, f ≠ some (k, c)) :
    tileStep f ts k x y pd
      = (true, { pd with
          layers := { L with tiles := L.tiles ++ [rectArea x y ts.x ts.y] } :: rest
          selection := some (rectArea x y ts.x ts.y) }) := by
  simp [tileStep, hf, PreviewDoc.select, PreviewDoc.paste, PreviewDoc.merge, hl, ha, rectArea]

/-- The inner loop, `n` iterations, none of them hit by a fault. -/
theorem tilesX_ok (f : Option (Nat × TileCall)) (ts : Vec2) (doc_x y : Int) (n : Nat) :
    ∀ (fuel : Nat) (x : Int) (k : Nat) (pd : PreviewDoc) (L : Layer) (rest : List Layer),
      pd.layers = L :: rest → pd.activeLayer = 0 →
      (∀ i : Nat, i < n → x + (i : Int) * ts.x < doc_x) → doc_x ≤ x + (n : Int) * ts.x →
      n < fuel → (∀ j c, k ≤ j → j < k + n → f ≠ some (j, c)) →
      ∃ pd1, tilesX f ts doc_x y fuel x k pd = (.ok, k + n, pd1)
        ∧ pd1.layers = { L with tiles := L.tiles ++ rowAreas ts.x ts.y y n x } :: rest
        ∧ pd1.activeLayer = 0 ∧ pd1.width = pd.width ∧ pd1.height = pd.height := by
  induction n with
  | zero =>
      intro fuel x k pd L rest hl ha _ hge hfuel _
      obtain ⟨fuel, rfl⟩ : ∃ g, fuel = g + 1 := ⟨fuel - 1, by omega⟩
      have hx : ¬ x < doc_x := by simp at hge; omega
      exact ⟨pd, by simp [tilesX, hx], by simp [rowAreas, hl], ha, rfl, rfl⟩
  | succ n ih =>
      intro fuel x k pd L rest hl ha hlt hge hfuel hf
      obtain ⟨fuel, rfl⟩ : ∃ g, fuel = g + 1 := ⟨fuel - 1, by omega⟩
      have hx : x < doc_x := by simpa using hlt 0 (by omega)
      have hstep := tileStep_ok f ts k x y pd L rest hl ha (fun c => hf k c (le_refl k) (by omega))
      obtain ⟨pd1, hrun, hl1, ha1, hw1, hh1⟩ :=
        ih fuel (x + ts.x) (k + 1)
          { pd with
            layers := { L with tiles := L.tiles ++ [rectArea x y ts.x ts.y] } :: rest
            selection := some (rectArea x y ts.x ts.y) }
          { L with tiles := L.tiles ++ [rectArea x y ts.x ts.y] } rest
          rfl ha
          (fun i hi => by
            have := hlt (i + 1) (by omega)
            push_cast at this
            linarith)
          (by push_cast at hge; linarith)
          (by omega)
          (fun j c h1 h2 => hf j c (by omega) (by omega))
      refine ⟨pd1, ?_, ?_, ha1, hw1, hh1⟩
      · rw [tilesX, if_pos hx, hstep]
        simp only [hrun]
        congr 2
        omega
      · simp [hl1, rowAreas]

/-- The outer loop, `m` rows of `n` iterations, none of them hit by a fault. -/
theorem tilesY_ok (f : Option (Nat × TileCall)) (ts : Vec2) (doc_x doc_y : Int)
    (fuelX n : Nat)
    (hxlt : ∀ i : Nat, i < n → (0 : Int) + (i : Int) * ts.x < doc_x)
    (hxge : doc_x ≤ (0 : Int) + (n : Int) * ts.x) (hfx : n < fuelX) (m : Nat) :
    ∀ (fuel : Nat) (y : Int) (k : Nat) (pd : PreviewDoc) (L : Layer) (rest : List Layer),
      pd.layers = L :: rest → pd.activeLayer = 0 →
      (∀ j : Nat, j < m → y + (j : Int) * ts.y < doc_y) → doc_y ≤ y + (m : Int) * ts.y →
      m < fuel → (∀ j c, k ≤ j → j < k + m * n → f ≠ some (j, c)) →
      ∃ pd1, tilesY f ts doc_x doc_y fuelX fuel y k pd = (.ok, k + m * n, pd1)
        ∧ pd1.layers = { L with tiles := L.tiles ++ gridAreas ts.x ts.y n m y } :: rest
        ∧ pd1.activeLayer = 0 ∧ pd1.width = pd.width ∧ pd1.height = pd.height := by
  induction m with
  | zero =>
      intro fuel y k pd L rest hl ha _ hge hfuel _
      obtain ⟨fuel, rfl⟩ : ∃ g, fuel = g + 1 := ⟨fuel - 1, by omega⟩
      have hy : ¬ y < doc_y := by simp at hge; omega
      exact ⟨pd, by simp [tilesY, hy], by simp [gridAreas, hl], ha, rfl, rfl⟩
  | succ m ih =>
      intro fuel y k pd L rest hl ha hlt hge hfuel hf
      obtain ⟨fuel, rfl⟩ : ∃ g, fuel = g + 1 := ⟨fuel - 1, by omega⟩
      have hy : y < doc_y := by simpa using hlt 0 (by omega)
      have hmn : (m + 1) * n = m * n + n := Nat.succ_mul m n
      obtain ⟨pd1, hrow, hl1, ha1, hw1, hh1⟩ :=
        tilesX_ok f ts doc_x y n fuelX 0 k pd L rest hl ha hxlt hxge hfx
          (fun j c h1 h2 => hf j c h1 (by omega))
      obtain ⟨pd2, hrun, hl2, ha2, hw2, hh2⟩ :=
        ih fuel (y + ts.y) (k + n) pd1 { L with tiles := L.tiles ++ rowAreas ts.x ts.y y n 0 } rest
          hl1 ha1
          (fun j hj => by
            have := hlt (j + 1) (by omega)
            push_cast at this
            linarith)
          (by push_cast at hge; linarith)
          (by omega)
          (fun j c h1 h2 => hf j c (by omega) (by omega))
      refine ⟨pd2, ?_, ?_, ha2, by rw [hw2, hw1], by rw [hh2, hh1]⟩
      · rw [tilesY, if_pos hy, hrow]
        simp only [hrun]
        congr 2
        omega
      · simp [hl2, gridAreas]

theorem ceilDiv_mul_ge (a b : Nat) (hb : 1 ≤ b) : a ≤ ceilDiv a b * b := by
  have h := Nat.lt_div_mul_add (a := a + b - 1) (b := b) (by omega)
  unfold ceilDiv
  omega

theorem lt_ceilDiv_mul (a b i : Nat) (hi : i < ceilDiv a b) : i * b < a := by
  have h1 : (i + 1) * b ≤ ceilDiv a b * b := Nat.mul_le_mul_right b hi
  have h2 : ceilDiv a b * b ≤ a + b - 1 := Nat.div_mul_le_self (a + b - 1) b
  have h3 : (i + 1) * b = i * b + b := Nat.succ_mul i b
  have hb : 1 ≤ b := by
    rcases Nat.eq_zero_or_pos b with h | h
    · subst h; simp [ceilDiv] at hi
    · exact h
  omega

/-- The number `ceilDiv a b` is the least `n` with `a ≤ n * b`. -/
theorem ceilDiv_le_iff (a b n : Nat) (hb : 1 ≤ b) : ceilDiv a b ≤ n ↔ a ≤ n * b := by
  constructor
  · intro h
    exact le_trans (ceilDiv_mul_ge a b hb) (Nat.mul_le_mul_right b h)
  · intro h
    by_contra hlt
    have := lt_ceilDiv_mul a b n (by omega)
    omega

theorem ceilDiv_add_mul (g c b : Nat) (hb : 1 ≤ b) :
    ceilDiv (c * b + g) b = c + ceilDiv g b := by
  unfold ceilDiv
  have h : c * b + g + b - 1 = (g + b - 1) + b * c := by
    rw [Nat.mul_comm b c]; omega
  rw [h, Nat.add_mul_div_left _ _ (by omega : 0 < b)]
  omega

theorem ceilDiv_mul_self (c b : Nat) (hb : 1 ≤ b) : ceilDiv (c * b) b = c := by
  have h := ceilDiv_add_mul 0 c b hb
  have h0 : ceilDiv 0 b = 0 := by
    unfold ceilDiv
    exact Nat.div_eq_of_lt (by omega)
  simpa [h0] using h

theorem loopCount_lt (doc step : Int) (i : Nat) (hi : i < loopCount doc step) :
    (0 : Int) + (i : Int) * step < doc := by
  have h := lt_ceilDiv_mul doc.toNat step.toNat i hi
  have hs : 1 ≤ step.toNat := by
    rcases Nat.eq_zero_or_pos step.toNat with h0 | h0
    · simp [loopCount, ceilDiv, h0] at hi
    · exact h0
  have hs2 : ((step.toNat : Nat) : Int) = step := Int.toNat_of_nonneg (by omega)
  have hd : ((doc.toNat : Nat) : Int) = doc := Int.toNat_of_nonneg (by omega)
  have hc : ((i * step.toNat : Nat) : Int) < ((doc.toNat : Nat) : Int) := by exact_mod_cast h
  rw [hd] at hc
  push_cast at hc
  rw [hs2] at hc
  linarith

theorem loopCount_ge (doc step : Int) (hs : 1 ≤ step) :
    doc ≤ (0 : Int) + (loopCount doc step : Int) * step := by
  have h := ceilDiv_mul_ge doc.toNat step.toNat (by omega)
  have hs2 : ((step.toNat : Nat) : Int) = step := Int.toNat_of_nonneg (by omega)
  have hc : ((doc.toNat : Nat) : Int) ≤ ((ceilDiv doc.toNat step.toNat * step.toNat : Nat) : Int) := by
    exact_mod_cast h
  push_cast at hc
  rw [hs2] at hc
  have hd : doc ≤ ((doc.toNat : Nat) : Int) := Int.self_le_toNat doc
  unfold loopCount
  linarith

theorem loopCount_natCast (a b : Nat) : loopCount (a : Int) (b : Int) = ceilDiv a b := by
  simp [loopCount]

/-! ## The function `_create_tiles` -/

/-- Without a fault, `_create_tiles` returns `true` once the budget exceeds both
iteration counts, having pasted the grid `loopCount height H` by `loopCount width W`
in row-major order into the active bottom layer. -/
theorem create_tiles_ok (env : Env) (st : State) (pd : PreviewDoc) (L : Layer)
    (rest : List Layer) (fuel : Nat)
    (hW : 1 ≤ st.tile_size.x) (hH : 1 ≤ st.tile_size.y)
    (hpd : st.preview_doc = some pd) (hl : pd.layers = L :: rest) (ha : pd.activeLayer = 0)
    (hf : env.faults.tiles = none)
    (hfx : loopCount pd.width st.tile_size.x < fuel)
    (hfy : loopCount pd.height st.tile_size.y < fuel) :
    ∃ pd1, _create_tiles env fuel st = (.ok, { st with preview_doc := some pd1 })
      ∧ pd1.layers
          = { L with tiles := (L.tiles ++ placements st.tile_size.x st.tile_size.y
                (loopCount pd.height st.tile_size.y) (loopCount pd.width st.tile_size.x)
                st.tile_size.x st.tile_size.y) } :: rest
      ∧ pd1.activeLayer = 0 ∧ pd1.width = pd.width ∧ pd1.height = pd.height := by
  obtain ⟨pd1, hrun, hl1, ha1, hw1, hh1⟩ :=
    tilesY_ok env.faults.tiles st.tile_size pd.width pd.height fuel
      (loopCount pd.width st.tile_size.x)
      (fun i hi => loopCount_lt _ _ i hi) (loopCount_ge _ _ hW) hfx
      (loopCount pd.height st.tile_size.y) fuel 0 0 pd L rest hl ha
      (fun j hj => loopCount_lt _ _ j hj) (loopCount_ge _ _ hH) hfy
      (fun j c _ _ => by rw [hf]; simp)
  refine ⟨pd1, ?_, ?_, ha1, hw1, hh1⟩
  · simp only [_create_tiles, hpd, hrun]
  · rw [hl1, gridAreas_eq_placements]

theorem covers_rectArea (x y w h px py : Int) :
    Area.covers (rectArea x y w h) px py
      = (decide (x ≤ px) && decide (px < x + w) && decide (y ≤ py) && decide (py < y + h)) := by
  rfl

/-- The number of rectangles of a row that cover a pixel. -/
theorem countP_rowAreas (W H y px py : Int) (hW : 1 ≤ W) (n : Nat) :
    ∀ x : Int, List.countP (fun a => Area.covers a px py) (rowAreas W H y n x)
      = if x ≤ px ∧ px < x + (n : Int) * W ∧ y ≤ py ∧ py < y + H then 1 else 0 := by
  induction n with
  | zero =>
      intro x
      rw [rowAreas, List.countP_nil, if_neg]
      simp only [Nat.cast_zero, zero_mul, add_zero]
      omega
  | succ n ih =>
      intro x
      have e : ((n + 1 : Nat) : Int) * W = (n : Int) * W + W := by push_cast; ring
      rw [rowAreas, List.countP_cons, ih, covers_rectArea, e]
      simp only [Bool.and_eq_true, decide_eq_true_eq]
      have hn : 0 ≤ (n : Int) * W := mul_nonneg (Int.natCast_nonneg n) (by omega)
      split_ifs <;> omega

/-- The number of rectangles of a grid that cover a pixel. -/
theorem countP_gridAreas (W H px py : Int) (hW : 1 ≤ W) (hH : 1 ≤ H) (n m : Nat) :
    ∀ y : Int, List.countP (fun a => Area.covers a px py) (gridAreas W H n m y)
      = if 0 ≤ px ∧ px < (n : Int) * W ∧ y ≤ py ∧ py < y + (m : Int) * H then 1 else 0 := by
  induction m with
  | zero =>
      intro y
      rw [gridAreas, List.countP_nil, if_neg]
      simp only [Nat.cast_zero, zero_mul, add_zero]
      omega
  | succ m ih =>
      intro y
      have e : ((m + 1 : Nat) : Int) * H = (m : Int) * H + H := by push_cast; ring
      rw [gridAreas, List.countP_append, ih, countP_rowAreas W H y px py hW, e]
      simp only [zero_add]
      have hm : 0 ≤ (m : Int) * H := mul_nonneg (Int.natCast_nonneg m) (by omega)
      split_ifs <;> omega

/-- Every pixel of the `n * W` by `m * H` canvas is covered by exactly one rectangle
of the packed grid, and no pixel outside the canvas is covered. -/
theorem placements_cover_once (W H px py : Int) (hW : 1 ≤ W) (hH : 1 ≤ H) (n m : Nat) :
    List.countP (fun a => Area.covers a px py) (placements W H m n W H)
      = if 0 ≤ px ∧ px < (n : Int) * W ∧ 0 ≤ py ∧ py < (m : Int) * H then 1 else 0 := by
  rw [← gridAreas_eq_placements, countP_gridAreas W H px py hW hH]
  simp

/-! ## Packed grids and iteration counts of `_create_tiles` -/

/-- C10: for a tile size `W x H` with `W, H ≥ 1` and a preview document of width `X`
and height `Y` (in particular `X, Y ≥ 1`), the loops of `_create_tiles` terminate:
with any large enough iteration budget and no throwing paste the function returns
`true`, having performed exactly `⌈X / W⌉ * ⌈Y / H⌉` select-and-paste steps, at the
origins `(i * W, j * H)` in row-major order.  With `X = C * W + G * (C - 1)` and
`Y = R * H + G * (R - 1)` the count is `(C + ⌈G * (C - 1) / W⌉) * (R + ⌈G * (R - 1) / H⌉)`. -/
theorem create_tiles_step_count (env : Env) (st : State) (pd : PreviewDoc)
    (L : Layer) (W H X Y : Nat) (hW : 1 ≤ W) (hH : 1 ≤ H)
    (hts : st.tile_size = ⟨(W : Int), (H : Int)⟩)
    (hpd : st.preview_doc = some pd) (hw : pd.width = (X : Int)) (hh : pd.height = (Y : Int))
    (hl : pd.layers = [L]) (ha : pd.activeLayer = 0)
    (hf : env.faults.tiles = none) :
    (∃ N, ∀ fuel, N ≤ fuel → ∃ pd1,
        _create_tiles env fuel st = (.ok, { st with preview_doc := some pd1 })
        ∧ pd1.layers
            = [{ L with tiles := (L.tiles ++ placements W H (ceilDiv Y H) (ceilDiv X W) W H) }])
      ∧ (placements W H (ceilDiv Y H) (ceilDiv X W) W H).length = ceilDiv X W * ceilDiv Y H
      ∧ (∀ n, ceilDiv X W ≤ n ↔ X ≤ n * W) ∧ (∀ n, ceilDiv Y H ≤ n ↔ Y ≤ n * H)
      ∧ (∀ C R G : Nat, 1 ≤ C → 1 ≤ R → X = C * W + G * (C - 1) → Y = R * H + G * (R - 1) →
          ceilDiv X W * ceilDiv Y H
            = (C + ceilDiv (G * (C - 1)) W) * (R + ceilDiv (G * (R - 1)) H)) := by
  have hx : st.tile_size.x = (W : Int) := by rw [hts]
  have hy : st.tile_size.y = (H : Int) := by rw [hts]
  refine ⟨⟨max (ceilDiv X W) (ceilDiv Y H) + 1, fun fuel hfuel => ?_⟩, ?_,
    fun n => ceilDiv_le_iff X W n hW, fun n => ceilDiv_le_iff Y H n hH, ?_⟩
  · obtain ⟨pd1, hrun, hl1, _, _, _⟩ :=
      create_tiles_ok env st pd L [] fuel (by rw [hx]; exact_mod_cast hW)
        (by rw [hy]; exact_mod_cast hH) hpd hl ha hf
        (by rw [hx, hw, loopCount_natCast]; omega)
        (by rw [hy, hh, loopCount_natCast]; omega)
    refine ⟨pd1, hrun, ?_⟩
    rw [hl1, hx, hy, hw, hh, loopCount_natCast, loopCount_natCast]
  · rw [← gridAreas_eq_placements, gridAreas_length, Nat.mul_comm]
  · intro C R G _ _ hX hY
    rw [hX, hY, ceilDiv_add_mul _ _ _ hW, ceilDiv_add_mul _ _ _ hH]

/-- C2: with the gap off (`false` or 0), for every tile size `W x H` with `W, H ≥ 1`
and every `rows = R`, `cols = C` (in particular `R, C ≥ 1`), `_create_image` makes
a `C * W` by `R * H` canvas and `_create_tiles`, given any large enough iteration
budget, selects and pastes into exactly the `R * C` rectangles of size `W x H` with
origin `(c * W, r * H)`, in row-major order; every pixel of the canvas lies in
exactly one of them and no rectangle reaches outside the canvas. -/
theorem gap_off_tiles_pack_canvas (env : Env) (st : State) (gap : Gap) (W H R C : Nat)
    (hW : 1 ≤ W) (hH : 1 ≤ H) (hgap : gap = .off ∨ gap = .px 0)
    (hts : st.tile_size = ⟨(W : Int), (H : Int)⟩)
    (hfc : env.faults.create = none) (hft : env.faults.tiles = none) :
    ∃ N, ∀ fuel, N ≤ fuel → ∃ st1 pd,
      _create_tiles env fuel (_create_image ⟨R, C, gap⟩ env st).2 = (.ok, st1)
      ∧ st1.preview_doc = some pd
      ∧ pd.width = (C : Int) * W ∧ pd.height = (R : Int) * H
      ∧ pd.layers = [{ background := false, tiles := placements W H R C W H, strokes := [] }]
      ∧ (placements W H R C W H).length = R * C
      ∧ ∀ px py : Int,
          List.countP (fun a => Area.covers a px py) (placements W H R C W H)
            = if 0 ≤ px ∧ px < (C : Int) * W ∧ 0 ≤ py ∧ py < (R : Int) * H then 1 else 0 := by
  have hg : gap.toNumber = 0 := by rcases hgap with h | h <;> simp [h, Gap.toNumber]
  have hWi : (1 : Int) ≤ (W : Int) := by exact_mod_cast hW
  have hHi : (1 : Int) ≤ (H : Int) := by exact_mod_cast hH
  have hcx : loopCount ((C : Int) * (W : Int)) (W : Int) = C := by
    have : ((C : Int) * (W : Int)) = ((C * W : Nat) : Int) := by push_cast; rfl
    rw [this, loopCount_natCast, ceilDiv_mul_self C W hW]
  have hcy : loopCount ((R : Int) * (H : Int)) (H : Int) = R := by
    have : ((R : Int) * (H : Int)) = ((R * H : Nat) : Int) := by push_cast; rfl
    rw [this, loopCount_natCast, ceilDiv_mul_self R H hH]
  refine ⟨max C R + 1, fun fuel hfuel => ?_⟩
  rw [create_image_ok _ env st hfc]
  simp only [hg, hts, zero_mul, add_zero]
  obtain ⟨pd1, hrun, hl1, _, hw1, hh1⟩ :=
    create_tiles_ok env
      { st with
        addCalls := st.addCalls ++ [((C : Int) * (W : Int), (R : Int) * (H : Int))]
        preview_doc := some
          { width := (C : Int) * (W : Int)
            height := (R : Int) * (H : Int)
            layers := [emptyLayer]
            activeLayer := 0
            selection := none }
        activeDocument := .preview }
      { width := (C : Int) * (W : Int)
        height := (R : Int) * (H : Int)
        layers := [emptyLayer]
        activeLayer := 0
        selection := none }
      emptyLayer [] fuel (by rw [hts]; exact hWi) (by rw [hts]; exact hHi) rfl rfl rfl hft
      (by simp only [hts, hcx]; omega) (by simp only [hts, hcy]; omega)
  simp only [hts, hcx, hcy] at hrun hl1
  refine ⟨_, pd1, hrun, rfl, hw1, hh1, ?_, ?_, ?_⟩
  · rw [hl1]; simp [emptyLayer]
  · rw [← gridAreas_eq_placements, gridAreas_length]
  · intro px py
    exact placements_cover_once W H px py hWi hHi C R

/-! ## What each function leaves unchanged -/

theorem notify_frame (env : Env) (st : State) (title : String) (yesno : Bool) :
    (_notify env st title yesno).2
      = { st with dialogs := st.dialogs
            ++ [if yesno then Dialog.confirm title else Dialog.alert title] } := by
  unfold _notify
  cases yesno <;> simp

theorem copy_active_frame (env : Env) (st : State) :
    ∃ ts, (_copy_active env st).2 = { st with tile_size := ts } := by
  unfold _copy_active
  repeat' split
  all_goals exact ⟨_, rfl⟩

theorem create_image_frame (s : Settings) (env : Env) (st : State) :
    ∃ pd ad ac, (_create_image s env st).2
      = { st with preview_doc := pd, activeDocument := ad, addCalls := ac } := by
  simp only [_create_image]
  repeat' split
  all_goals exact ⟨_, _, _, rfl⟩

theorem create_tiles_frame (env : Env) (fuel : Nat) (st : State) :
    ∃ pd, (_create_tiles env fuel st).2 = { st with preview_doc := pd } := by
  unfold _create_tiles
  split
  · exact ⟨st.preview_doc, rfl⟩
  · exact ⟨_, rfl⟩

theorem highlight_tile_frame (env : Env) (st : State) :
    ∃ pd, (_highlight_tile env st).2 = { st with preview_doc := pd } := by
  unfold _highlight_tile
  repeat' split
  all_goals exact ⟨_, rfl⟩

/-- The part of `_init` after the target is set changes neither `target` nor
`units`, and leaves in `tile_size` what `_copy_active` put there. -/
theorem init_rest_frame (s : Settings) (env : Env) (fuel : Nat) (st : State) :
    ∃ pd ad ac dl, (_init_rest s env fuel st).2
      = { st with
          rulerUnits := .PIXELS
          tile_size := (_copy_active env { st with rulerUnits := .PIXELS }).2.tile_size
          preview_doc := pd, activeDocument := ad, addCalls := ac, dialogs := dl } := by
  obtain ⟨ts, hcopy⟩ := copy_active_frame env { st with rulerUnits := .PIXELS }
  obtain ⟨pd2, ad2, ac2, h2⟩ :=
    create_image_frame s env { st with rulerUnits := .PIXELS, tile_size := ts }
  unfold _init_rest
  simp only [hcopy]
  generalize _create_image s env { st with rulerUnits := .PIXELS, tile_size := ts } = r2 at h2 ⊢
  obtain ⟨ok, st2⟩ := r2
  dsimp only at h2 ⊢
  subst h2
  obtain ⟨pd3, h3⟩ := create_tiles_frame env fuel
    { st with rulerUnits := .PIXELS, tile_size := ts, preview_doc := pd2,
              activeDocument := ad2, addCalls := ac2 }
  generalize _create_tiles env fuel
    { st with rulerUnits := .PIXELS, tile_size := ts, preview_doc := pd2,
              activeDocument := ad2, addCalls := ac2 } = r3 at h3 ⊢
  obtain ⟨status, st3⟩ := r3
  dsimp only at h3 ⊢
  subst h3
  split_ifs
  · exact ⟨_, _, _, _, by rw [notify_frame]⟩
  · exact ⟨_, _, _, _, by rw [notify_frame]⟩
  · cases status
    · obtain ⟨pd4, h4⟩ := highlight_tile_frame env
        { st with rulerUnits := .PIXELS, tile_size := ts, preview_doc := pd3,
                  activeDocument := ad2, addCalls := ac2 }
      dsimp only
      generalize _highlight_tile env
        { st with rulerUnits := .PIXELS, tile_size := ts, preview_doc := pd3,
                  activeDocument := ad2, addCalls := ac2 } = r4 at h4 ⊢
      obtain ⟨b, st4⟩ := r4
      dsimp only at h4 ⊢
      subst h4
      cases b
      · exact ⟨_, _, _, _, by dsimp only; rw [notify_frame]⟩
      · exact ⟨_, _, _, _, rfl⟩
    · exact ⟨_, _, _, _, by dsimp only; rw [notify_frame]⟩
    · exact ⟨_, _, _, _, rfl⟩

theorem init_rest_target (s : Settings) (env : Env) (fuel : Nat) (st : State) :
    (_init_rest s env fuel st).2.target = st.target := by
  obtain ⟨_, _, _, _, h⟩ := init_rest_frame s env fuel st
  rw [h]

theorem init_rest_tile_size (s : Settings) (env : Env) (fuel : Nat) (st : State) :
    (_init_rest s env fuel st).2.tile_size
      = (_copy_active env { st with rulerUnits := .PIXELS }).2.tile_size := by
  obtain ⟨_, _, _, _, h⟩ := init_rest_frame s env fuel st
  rw [h]

/-- The two ways `_init` can go: it returns after one dialog without having touched
anything but `target`, or it goes on to line 134 with nothing changed but `target`
and the dialogs. -/
theorem init_cases (s : Settings) (env : Env) (st : State) :
    (∃ t d, ∀ fuel, _init s env fuel st
        = (.returned, { st with target := t, dialogs := st.dialogs ++ [d] }))
      ∨ (∃ t dl, ∀ fuel, _init s env fuel st
        = _init_rest s env fuel { st with target := t, dialogs := dl }) := by
  unfold _init
  split_ifs
  · exact Or.inl ⟨st.target, _, fun _ => by rw [notify_frame]⟩
  · exact Or.inl ⟨st.target, _, fun _ => by rw [notify_frame]⟩
  · exact Or.inl ⟨st.target, _, fun _ => by rw [notify_frame]⟩
  · exact Or.inr ⟨.SELECTION, st.dialogs, fun _ => rfl⟩
  · exact Or.inl ⟨.LAYER, _, fun _ => by dsimp only; rw [notify_frame]⟩
  · cases hc : env.confirmAnswer
    · exact Or.inl ⟨.LAYER, .confirm "Tile Layer Group?", fun _ => by simp [_notify, hc]⟩
    · exact Or.inr ⟨.LAYER, st.dialogs ++ [.confirm "Tile Layer Group?"],
        fun _ => by simp [_notify, hc]⟩
  · exact Or.inr ⟨.LAYER, st.dialogs, fun _ => rfl⟩
  · exact Or.inr ⟨st.target, st.dialogs, fun _ => rfl⟩

/-! ## Target mode -/

/-- C4: whenever `_init` gets as far as choosing a target (the version is 16 or
higher, a document is open, the no-artwork guard does not fire), the target it
leaves is decided by the document state alone, by strict priority: SELECTION when
the selection is active, whatever the numbers of art layers and layer groups;
otherwise LAYER when there is more than one art layer or at least one layer group;
otherwise IMAGE.  Nothing after line 132 changes the target. -/
theorem init_target_priority (s : Settings) (env : Env) (fuel : Nat)
    (hv : _minimum_version env = true) (hd : _open_document env = true)
    (hart : (env.artLayersLeOne && env.layerEmpty) = false) :
    (Selection.active env = true →
        (_init s env fuel (initialState env)).2.target = .SELECTION)
      ∧ (Selection.active env = false → (1 < env.artLayersLength ∨ 0 < env.layerSetsLength) →
        (_init s env fuel (initialState env)).2.target = .LAYER)
      ∧ (Selection.active env = false → env.artLayersLength ≤ 1 → env.layerSetsLength = 0 →
        (_init s env fuel (initialState env)).2.target = .IMAGE) := by
  refine ⟨fun hsel => ?_, fun hsel hl => ?_, fun hsel h1 h2 => ?_⟩
  · unfold _init
    simp only [hv, hd, hart, hsel, Bool.not_true, Bool.false_eq_true, if_false, if_true]
    rw [init_rest_target]
  · have hl2 : (decide (env.artLayersLength > 1) || decide (env.layerSetsLength > 0)) = true := by
      simpa using hl
    unfold _init
    simp only [hv, hd, hart, hsel, hl2, Bool.not_true, Bool.false_eq_true, if_false, if_true]
    split_ifs
    · rw [notify_frame]
    · cases hc : env.confirmAnswer
      · simp [_notify, hc]
      · simp only [_notify, hc, if_true]
        rw [init_rest_target]
    · rw [init_rest_target]
  · have hl2 : (decide (env.artLayersLength > 1) || decide (env.layerSetsLength > 0)) = false := by
      simp
      omega
    unfold _init
    simp only [hv, hd, hart, hsel, hl2, Bool.not_true, Bool.false_eq_true, if_false]
    rw [init_rest_target]
    rfl

/-! ## The guard on the tile size -/

theorem init_rest_zero (s : Settings) (env : Env) (fuel : Nat) (st : State)
    (h0 : (_copy_active env { st with rulerUnits := .PIXELS }).2.tile_size.x = 0
      ∨ (_copy_active env { st with rulerUnits := .PIXELS }).2.tile_size.y = 0) :
    _init_rest s env fuel st
      = (.returned,
          { st with
            rulerUnits := .PIXELS
            tile_size := (_copy_active env { st with rulerUnits := .PIXELS }).2.tile_size
            dialogs := st.dialogs ++ [.alert "No Source Tile"] }) := by
  obtain ⟨ts, hcopy⟩ := copy_active_frame env { st with rulerUnits := .PIXELS }
  unfold _init_rest
  simp only [hcopy] at h0 ⊢
  rw [if_pos h0, notify_frame]
  rfl

theorem preview_eq (s : Settings) (env : Env) (fuel : Nat) :
    (Preview s env fuel).1 = (_init s env fuel (initialState env)).1
      ∧ (Preview s env fuel).2.tile_size = (_init s env fuel (initialState env)).2.tile_size
      ∧ (Preview s env fuel).2.addCalls = (_init s env fuel (initialState env)).2.addCalls
      ∧ (Preview s env fuel).2.preview_doc = (_init s env fuel (initialState env)).2.preview_doc
      ∧ (Preview s env fuel).2.dialogs = (_init s env fuel (initialState env)).2.dialogs
      ∧ (Preview s env fuel).2.target = (_init s env fuel (initialState env)).2.target := by
  unfold Preview
  rcases _init s env fuel (initialState env) with ⟨c, st⟩
  cases c <;> exact ⟨rfl, rfl, rfl, rfl, rfl, rfl⟩

/-- C5: in every target mode, if `_copy_active` leaves `tile_size.x = 0` or
`tile_size.y = 0` (also when it throws and leaves the initial 0, 0), the rest of
`_init` returns right after the "No Source Tile" alert, before `_create_image`: no
call of `app.documents.add` is made and `preview_doc` is not assigned.  For the
whole session: when `tile_size` ends with a zero component, the session has
returned after a dialog, with no `documents.add` call and no preview document. -/
theorem zero_tile_aborts_before_create_image (s : Settings) (env : Env) (fuel : Nat) :
    (∀ st : State,
        ((_copy_active env { st with rulerUnits := .PIXELS }).2.tile_size.x = 0
          ∨ (_copy_active env { st with rulerUnits := .PIXELS }).2.tile_size.y = 0) →
        ∃ st1, _init_rest s env fuel st = (.returned, st1)
          ∧ st1.dialogs = st.dialogs ++ [.alert "No Source Tile"]
          ∧ st1.preview_doc = st.preview_doc ∧ st1.addCalls = st.addCalls)
      ∧ (((Preview s env fuel).2.tile_size.x = 0 ∨ (Preview s env fuel).2.tile_size.y = 0) →
        ∃ st1, Preview s env fuel = (.returned, st1)
          ∧ st1.preview_doc = none ∧ st1.addCalls = [] ∧ st1.dialogs ≠ []) := by
  constructor
  · intro st h0
    exact ⟨_, init_rest_zero s env fuel st h0, rfl, rfl, rfl⟩
  · intro h0
    obtain ⟨_, hts, _, _, _, _⟩ := preview_eq s env fuel
    rw [hts] at h0
    rcases init_cases s env (initialState env) with ⟨t, d, h⟩ | ⟨t, dl, h⟩
    · refine ⟨_, by unfold Preview; rw [h], rfl, rfl, ?_⟩
      simp [_end, initialState]
    · replace h := h fuel
      rw [h, init_rest_tile_size] at h0
      have hz := init_rest_zero s env fuel _ h0
      refine ⟨_, by unfold Preview; rw [h, hz], rfl, rfl, ?_⟩
      simp [_end]

/-! ## Settings are not validated -/

theorem one_le_loopCount (doc step : Int) (hd : 1 ≤ doc) (hs : 1 ≤ step) :
    1 ≤ loopCount doc step := by
  have h := loopCount_ge doc step hs
  rcases Nat.eq_zero_or_pos (loopCount doc step) with h0 | h0
  · rw [h0] at h
    simp at h
    omega
  · exact h0

theorem placements_head (W H : Int) (m n : Nat) (hm : 1 ≤ m) (hn : 1 ≤ n) :
    ∃ rest, placements W H m n W H = [(0, 0), (W, 0), (W, H), (0, H)] :: rest := by
  obtain ⟨m, rfl⟩ : ∃ a, m = a + 1 := ⟨m - 1, by omega⟩
  obtain ⟨n, rfl⟩ : ∃ a, n = a + 1 := ⟨n - 1, by omega⟩
  rw [← gridAreas_eq_placements]
  exact ⟨rowAreas W H 0 n (0 + W) ++ gridAreas W H (n + 1) m (0 + H),
    by simp [gridAreas, rowAreas, rectArea]⟩

/-- C9: for every tile size `W x H` with `W, H ≥ 1`, `_highlight_tile` adds a new art
layer on top of the preview document, makes it active, and strokes on it exactly
the rectangle with corners `(0,0), (W,0), (W,H), (0,H)`, once, with width 1,
location INSIDE and colour FF00FF; the layers the document had before, among them
the one holding the pasted tiles, are unchanged below it.  That rectangle is the
first one `_create_tiles` selects and pastes into on any canvas of width and
height at least 1. -/
theorem highlight_strokes_first_tile (env : Env) (st : State) (pd : PreviewDoc) (W H : Int)
    (hW : 1 ≤ W) (hH : 1 ≤ H) (hts : st.tile_size = ⟨W, H⟩)
    (hpd : st.preview_doc = some pd) (hf : env.faults.highlight = none) :
    _highlight_tile env st
        = (true, { st with preview_doc := (some
            { pd with
              layers :=
                ({ background := false
                   tiles := []
                   strokes := [⟨"FF00FF", 1, .INSIDE, [(0, 0), (W, 0), (W, H), (0, H)]⟩] }
                  :: pd.layers)
              activeLayer := 0
              selection := none }) })
      ∧ (∀ (st0 : State) (pd0 : PreviewDoc) (L : Layer),
          st0.tile_size = ⟨W, H⟩ → st0.preview_doc = some pd0 → pd0.layers = [L] →
          pd0.activeLayer = 0 → 1 ≤ pd0.width → 1 ≤ pd0.height → env.faults.tiles = none →
          ∃ N, ∀ fuel, N ≤ fuel → ∃ pd1 rest,
            _create_tiles env fuel st0 = (.ok, { st0 with preview_doc := some pd1 })
              ∧ pd1.layers
                = [{ L with tiles := (L.tiles ++ [(0, 0), (W, 0), (W, H), (0, H)] :: rest) }]) := by
  constructor
  · simp [_highlight_tile, hpd, hf, faultWithin, hts, PreviewDoc.artLayersAdd,
      PreviewDoc.select, PreviewDoc.stroke, PreviewDoc.deselect, emptyLayer]
  · intro st0 pd0 L hts0 hpd0 hl0 ha0 hw0 hh0 hft
    have hx : st0.tile_size.x = W := by rw [hts0]
    have hy : st0.tile_size.y = H := by rw [hts0]
    refine ⟨max (loopCount pd0.width W) (loopCount pd0.height H) + 1, fun fuel hfuel => ?_⟩
    obtain ⟨pd1, hrun, hl1, _, _, _⟩ :=
      create_tiles_ok env st0 pd0 L [] fuel (by rw [hx]; exact hW) (by rw [hy]; exact hH)
        hpd0 hl0 ha0 hft (by rw [hx]; omega) (by rw [hy]; omega)
    rw [hx, hy] at hl1
    obtain ⟨rest, hrest⟩ := placements_head W H (loopCount pd0.height H) (loopCount pd0.width W)
      (one_le_loopCount _ _ hh0 hH) (one_le_loopCount _ _ hw0 hW)
    rw [hrest] at hl1
    exact ⟨pd1, rest, hrun, hl1⟩

/-! ## Concrete runs -/

theorem gap_off_tiles_pack_canvas_witness :
    (1 ≤ 64 ∧ 1 ≤ 64 ∧ (Gap.off = Gap.off ∨ Gap.off = Gap.px 0))
      ∧ ∃ N, ∀ fuel, N ≤ fuel → ∃ st1 pd,
        _create_tiles (demoEnv 64 64) fuel
            (_create_image ⟨((2 : Nat) : Int), ((3 : Nat) : Int), .off⟩ (demoEnv 64 64)
              (demoState 64 64)).2 = (.ok, st1)
          ∧ st1.preview_doc = some pd
          ∧ pd.width = ((3 : Nat) : Int) * ((64 : Nat) : Int)
          ∧ pd.height = ((2 : Nat) : Int) * ((64 : Nat) : Int)
          ∧ pd.layers = [{ background := false
                           tiles := placements ((64 : Nat) : Int) ((64 : Nat) : Int) 2 3
                             ((64 : Nat) : Int) ((64 : Nat) : Int)
                           strokes := [] }]
          ∧ (placements ((64 : Nat) : Int) ((64 : Nat) : Int) 2 3
              ((64 : Nat) : Int) ((64 : Nat) : Int)).length = 2 * 3
          ∧ ∀ px py : Int,
              List.countP (fun a => Area.covers a px py)
                  (placements ((64 : Nat) : Int) ((64 : Nat) : Int) 2 3
                    ((64 : Nat) : Int) ((64 : Nat) : Int))
                = if 0 ≤ px ∧ px < ((3 : Nat) : Int) * ((64 : Nat) : Int)
                    ∧ 0 ≤ py ∧ py < ((2 : Nat) : Int) * ((64 : Nat) : Int) then 1 else 0 :=
  ⟨⟨by decide, by decide, Or.inl rfl⟩,
    gap_off_tiles_pack_canvas (demoEnv 64 64) (demoState 64 64) .off 64 64 2 3
      (by decide) (by decide) (Or.inl rfl) rfl rfl rfl⟩

/-- The scenario of a 64 x 64 image with rows 2, cols 3 and the gap off: the whole
session leaves a 192 x 128 preview whose tile layer holds the six rectangles with
origins (0,0), (64,0), (128,0), (0,64), (64,64), (128,64), below the highlight layer. -/
theorem scenario_64_rows2_cols3 :
    Preview ⟨2, 3, .off⟩ (demoEnv 64 64) 4
      = (.returned,
          { target := .IMAGE
            units := .INCHES
            tile_size := ⟨64, 64⟩
            preview_doc := some
              { width := 192
                height := 128
                layers :=
                  [{ background := false
                     tiles := []
                     strokes := [⟨"FF00FF", 1, .INSIDE, rectArea 0 0 64 64⟩] },
                   { background := false
                     tiles := [rectArea 0 0 64 64, rectArea 64 0 64 64, rectArea 128 0 64 64,
                               rectArea 0 64 64 64, rectArea 64 64 64 64, rectArea 128 64 64 64]
                     strokes := [] }]
                activeLayer := 0
                selection := none }
            rulerUnits := .INCHES
            activeDocument := .original
            dialogs := []
            addCalls := [(192, 128)] }) := by
  decide

/-- C3 (the code at the failing input): with rows 2, cols 2, gap 10 and a 50 x 50
tile the canvas is 110 x 110, and `_create_tiles` steps by the tile size alone: it
pastes nine tiles, at the origins (0,0), (50,0), (100,0), (0,50), ..., (100,100),
not the four tiles at (0,0), (60,0), (0,60), (60,60) spaced by the gap. -/
theorem gap_ignored_by_create_tiles :
    (_create_tiles (demoEnv 50 50) 4
        (_create_image ⟨2, 2, .px 10⟩ (demoEnv 50 50) (demoState 50 50)).2).2.preview_doc
      = some
          { width := 110
            height := 110
            layers :=
              [{ background := false
                 tiles := [rectArea 0 0 50 50, rectArea 50 0 50 50, rectArea 100 0 50 50,
                           rectArea 0 50 50 50, rectArea 50 50 50 50, rectArea 100 50 50 50,
                           rectArea 0 100 50 50, rectArea 50 100 50 50, rectArea 100 100 50 50]
                 strokes := [] }]
            activeLayer := 0
            selection := some (rectArea 100 100 50 50) }
      ∧ placements 50 50 2 2 (50 + 10) (50 + 10)
          = [rectArea 0 0 50 50, rectArea 60 0 50 50, rectArea 0 60 50 50, rectArea 60 60 50 50] := by
  decide

theorem init_target_priority_witness :
    (_minimum_version demoEnvSelection = true ∧ _open_document demoEnvSelection = true
        ∧ (demoEnvSelection.artLayersLeOne && demoEnvSelection.layerEmpty) = false)
      ∧ (Selection.active demoEnvSelection = true →
          (_init settings demoEnvSelection 6 (initialState demoEnvSelection)).2.target
            = .SELECTION)
      ∧ (Selection.active demoEnvSelection = false →
          (1 < demoEnvSelection.artLayersLength ∨ 0 < demoEnvSelection.layerSetsLength) →
          (_init settings demoEnvSelection 6 (initialState demoEnvSelection)).2.target = .LAYER)
      ∧ (Selection.active demoEnvSelection = false →
          demoEnvSelection.artLayersLength ≤ 1 → demoEnvSelection.layerSetsLength = 0 →
          (_init settings demoEnvSelection 6 (initialState demoEnvSelection)).2.target
            = .IMAGE) :=
  ⟨⟨by decide, by decide, by decide⟩,
    init_target_priority settings demoEnvSelection 6 (by decide) (by decide) (by decide)⟩

theorem zero_tile_aborts_witness :
    ((Preview settings (demoEnv 0 64) 6).2.tile_size.x = 0
        ∨ (Preview settings (demoEnv 0 64) 6).2.tile_size.y = 0)
      ∧ ∃ st1, Preview settings (demoEnv 0 64) 6 = (.returned, st1)
          ∧ st1.preview_doc = none ∧ st1.addCalls = [] ∧ st1.dialogs ≠ [] :=
  ⟨Or.inl (by decide),
    (zero_tile_aborts_before_create_image settings (demoEnv 0 64) 6).2 (Or.inl (by decide))⟩

theorem highlight_strokes_first_tile_witness :
    ((1 : Int) ≤ 64 ∧ (demoEnv 64 64).faults.highlight = none)
      ∧ _highlight_tile (demoEnv 64 64)
          { demoState 64 64 with preview_doc := some (newDocument 192 128) }
        = (true, { demoState 64 64 with preview_doc := (some
            { width := 192
              height := 128
              layers :=
                [{ background := false
                   tiles := []
                   strokes := [⟨"FF00FF", 1, .INSIDE, [(0, 0), (64, 0), (64, 64), (0, 64)]⟩] },
                 { background := true, tiles := [], strokes := [] }]
              activeLayer := 0
              selection := none }) }) :=
  ⟨⟨by decide, rfl⟩,
    (highlight_strokes_first_tile (demoEnv 64 64)
      { demoState 64 64 with preview_doc := some (newDocument 192 128) }
      (newDocument 192 128) 64 64 (by decide) (by decide) rfl rfl rfl).1⟩

theorem create_tiles_step_count_witness :
    (1 ≤ 50 ∧ ceilDiv 110 50 * ceilDiv 110 50 = 9)
      ∧ (∃ N, ∀ fuel, N ≤ fuel → ∃ pd1,
          _create_tiles (demoEnv 50 50) fuel
              { demoState 50 50 with
                preview_doc := some { newDocument 110 110 with layers := [emptyLayer] } }
            = (.ok, { demoState 50 50 with preview_doc := some pd1 })
          ∧ pd1.layers
              = [{ emptyLayer with
                   tiles := (emptyLayer.tiles ++ placements ((50 : Nat) : Int) ((50 : Nat) : Int)
                     (ceilDiv 110 50) (ceilDiv 110 50) ((50 : Nat) : Int) ((50 : Nat) : Int)) }]) :=
  ⟨⟨by decide, by decide⟩,
    (create_tiles_step_count (demoEnv 50 50)
      { demoState 50 50 with
        preview_doc := some { newDocument 110 110 with layers := [emptyLayer] } }
      { newDocument 110 110 with layers := [emptyLayer] } emptyLayer 50 50 110 110
      (by decide) (by decide) rfl rfl rfl rfl rfl rfl rfl).1⟩

end TilePreview
